import Mathlib

/-!
Shallow embedding of the sudachi-swift facade (src/rust/src/lib.rs).

The crate is a thin facade over the sudachi.rs morphological analyzer:
it resolves a configuration, loads a dictionary, tokenizes text, projects
the analyzer's morphemes into flat records, and computes dictionary
distribution metadata.  The analyzer library itself (ConfigBuilder,
JapaneseDictionary, StatefulTokenizer) is an external collaborator and is
modelled abstractly as an `AnalyzerLib` record of its operations; the
facade's own logic is translated from src/rust/src/lib.rs.
-/

namespace SudachiSwift

/-- Split a character list at every slash, keeping empty pieces. -/
def splitPath : List Char → List Char → List String
  | [], cur => [String.mk cur.reverse]
  | c :: rest, cur =>
    if c == '/' then String.mk cur.reverse :: splitPath rest []
    else splitPath rest (c :: cur)

/-- Whether a Unix path string is absolute (begins with a slash). -/
def pathIsAbsolute (p : String) : Bool :=
  match p.data with
  | c :: _ => c == '/'
  | [] => false

/-- Components of a Unix path string, modelling Rust `std::path::Path`
component parsing as used by `Path::parent` in `Tokenizer::new`
(src/rust/src/lib.rs:149-150): separators split the path, empty and `.`
components are normalized away, except that a leading `.` of a relative
path is kept. -/
def pathComponents (p : String) : List String :=
  let raw := (splitPath p.data []).filter (fun c => c != "")
  match raw with
  | [] => []
  | c :: rest =>
    if c == "." && !(pathIsAbsolute p) then c :: rest.filter (fun x => x != ".")
    else (c :: rest).filter (fun x => x != ".")

/-- Rust `Path::parent` on Unix: drop the final component; `none` when the
path is empty or consists only of the root. A one-component relative path
has parent `some ""`, and `/a` has parent `some "/"`. -/
def pathParent (p : String) : Option String :=
  match pathComponents p with
  | [] => none
  | comps =>
    let front := comps.dropLast
    if pathIsAbsolute p then some ("/" ++ String.intercalate "/" front)
    else some (String.intercalate "/" front)

/-- Error taxonomy of the facade (src/rust/src/lib.rs:16-29). Each variant
carries a human-readable message. -/
inductive SudachiError where
  | DictionaryLoadError (message : String)
  | ConfigError (message : String)
  | TokenizeError (message : String)
  | InvalidArgument (message : String)
deriving DecidableEq

/-- The message field carried by every error variant. -/
def SudachiError.message : SudachiError → String
  | .DictionaryLoadError m => m
  | .ConfigError m => m
  | .TokenizeError m => m
  | .InvalidArgument m => m

/-- Dictionary size variants (src/rust/src/lib.rs:34-42). -/
inductive DictionaryType where
  | Small
  | Core
  | Full
deriving DecidableEq

/-- Canonical name token of a dictionary size (src/rust/src/lib.rs:44-52). -/
def DictionaryType.as_str : DictionaryType → String
  | .Small => "small"
  | .Core => "core"
  | .Full => "full"

/-- Caller-facing tokenization granularity modes (src/rust/src/lib.rs:57-65). -/
inductive TokenizeMode where
  | A
  | B
  | C
deriving DecidableEq

/-- The analyzer library's segmentation mode enumeration
(sudachi::analysis::Mode, external; it has exactly the variants A, B, C). -/
inductive SudachiMode where
  | A
  | B
  | C
deriving DecidableEq

/-- Mode conversion of the facade, translated from the
From TokenizeMode for SudachiMode impl (src/rust/src/lib.rs:67-75). -/
def TokenizeMode.into : TokenizeMode → SudachiMode
  | .A => SudachiMode.A
  | .B => SudachiMode.B
  | .C => SudachiMode.C

/-- The inverse of the mode conversion, defined by the spec's claim that the
mapping is a bijection; the source provides only the forward direction. -/
def SudachiMode.intoTokenizeMode : SudachiMode → TokenizeMode
  | .A => TokenizeMode.A
  | .B => TokenizeMode.B
  | .C => TokenizeMode.C

/-- Raw morpheme as exposed by the analyzer library's morpheme list
(external collaborator contract): surface, part-of-speech tags, dictionary
form, normalized form, reading form, OOV flag, the 32-bit word identifier
returned by WordId::word(), and begin/end byte offsets (usize). -/
structure RawMorpheme where
  surface : String
  partOfSpeech : List String
  dictionaryForm : String
  normalizedForm : String
  readingForm : String
  isOov : Bool
  wordId : Nat
  begin : Nat
  end_ : Nat
deriving DecidableEq

/-- Morpheme record crossing the language boundary
(src/rust/src/lib.rs:80-100). -/
structure MorphemeInfo where
  surface : String
  part_of_speech : List String
  dictionary_form : String
  normalized_form : String
  reading_form : String
  is_oov : Bool
  word_id : Int
  begin : Nat
  end_ : Nat
deriving DecidableEq

/-- Reinterpretation of an unsigned machine integer as a signed 32-bit
integer, modelling the Rust cast `as i32`. -/
def toI32 (n : Nat) : Int :=
  if n % 4294967296 < 2147483648 then ((n % 4294967296 : Nat) : Int)
  else ((n % 4294967296 : Nat) : Int) - 4294967296

/-- Projection of one raw analyzer morpheme into the facade's record,
translated from the closure in `Tokenizer::tokenize`
(src/rust/src/lib.rs:211-221): every textual field and the OOV flag are
copied, the word identifier is cast `as i32`, and the begin/end byte
offsets are cast `as u32`. -/
def projectMorpheme (m : RawMorpheme) : MorphemeInfo :=
  { surface := m.surface
    part_of_speech := m.partOfSpeech.map (fun s => s)
    dictionary_form := m.dictionaryForm
    normalized_form := m.normalizedForm
    reading_form := m.readingForm
    is_oov := m.isOov
    word_id := toI32 m.wordId
    begin := m.begin % 4294967296
    end_ := m.end_ % 4294967296 }

/-- Configuration record for creating a Tokenizer
(src/rust/src/lib.rs:105-116). -/
structure TokenizerConfig where
  dictionary_path : String
  config_path : Option String
  resource_path : Option String
  user_dictionary_path : Option String
deriving DecidableEq

/-- State of the analyzer library's ConfigBuilder as observable through the
facade: the opaque base configuration (parsed config file or empty) plus
the explicitly set system dictionary, resource path and user dictionaries. -/
structure ConfigBuilder (β : Type) where
  base : β
  systemDict : Option String
  resourcePath : Option String
  userDicts : List String

/-- ConfigBuilder::system_dict: record the system dictionary path. -/
def ConfigBuilder.system_dict (b : ConfigBuilder β) (p : String) : ConfigBuilder β :=
  { b with systemDict := some p }

/-- ConfigBuilder::resource_path: record the resource directory. -/
def ConfigBuilder.resource_path (b : ConfigBuilder β) (p : String) : ConfigBuilder β :=
  { b with resourcePath := some p }

/-- ConfigBuilder::user_dict: append a user dictionary path. -/
def ConfigBuilder.user_dict (b : ConfigBuilder β) (p : String) : ConfigBuilder β :=
  { b with userDicts := b.userDicts ++ [p] }

/-- Abstract interface of the external analyzer library (sudachi.rs), the
collaborator of the facade: config-file parsing, dictionary loading, and
the stateful tokenization session.  β is the opaque parsed base
configuration, δ the loaded dictionary, σ the session state. -/
structure AnalyzerLib (β δ σ : Type) where
  config_from_file : String → Except String β
  empty : β
  from_cfg : ConfigBuilder β → Except String δ
  new_session : δ → SudachiMode → σ
  push_str : σ → String → σ
  do_tokenize : σ → Except String σ
  into_morpheme_list : σ → Except String (List RawMorpheme)

/-- The facade's tokenizer object: it owns one loaded dictionary
(src/rust/src/lib.rs:121-124). -/
structure Tokenizer (δ : Type) where
  dictionary : δ

/-- Resource-path resolution of `Tokenizer::new` (src/rust/src/lib.rs:146-152):
the explicit resource_path, else the parent directory of config_path,
else the parent directory of dictionary_path, else none. -/
def resolveResourcePath (config : TokenizerConfig) : Option String :=
  config.resource_path.orElse (fun _ =>
    ((config.config_path.bind (fun p => pathParent p)).orElse
      (fun _ => pathParent config.dictionary_path)))

/-- The builder chain of `Tokenizer::new` after the base configuration is
obtained (src/rust/src/lib.rs:142-163): set the system dictionary, set the
resolved resource path when one exists, append the user dictionary when
given. -/
def builtConfig (base : β) (config : TokenizerConfig) : ConfigBuilder β :=
  let builder : ConfigBuilder β :=
    { base := base, systemDict := none, resourcePath := none, userDicts := [] }
  let builder := builder.system_dict config.dictionary_path
  let builder :=
    match resolveResourcePath config with
    | some res => builder.resource_path res
    | none => builder
  match config.user_dictionary_path with
  | some u => builder.user_dict u
  | none => builder

/-- Tokenizer construction (src/rust/src/lib.rs:130-174): parse the config
file when given (failure becomes ConfigError), build the configuration,
load the dictionary (failure becomes DictionaryLoadError). -/
def Tokenizer.new (lib : AnalyzerLib β δ σ) (config : TokenizerConfig) :
    Except SudachiError (Tokenizer δ) :=
  let baseResult : Except SudachiError β :=
    match config.config_path with
    | some path =>
      match lib.config_from_file path with
      | .ok b => .ok b
      | .error e => .error (SudachiError.ConfigError e)
    | none => .ok lib.empty
  match baseResult with
  | .error e => .error e
  | .ok base =>
    match lib.from_cfg (builtConfig base config) with
    | .error e => .error (SudachiError.DictionaryLoadError e)
    | .ok dict => .ok { dictionary := dict }

/-- Convenience constructor with only a dictionary path
(src/rust/src/lib.rs:178-185). -/
def Tokenizer.with_dictionary (lib : AnalyzerLib β δ σ) (dictionary_path : String) :
    Except SudachiError (Tokenizer δ) :=
  Tokenizer.new lib
    { dictionary_path := dictionary_path
      config_path := none
      resource_path := none
      user_dictionary_path := none }

/-- Tokenization (src/rust/src/lib.rs:188-225): build a fresh session for
the owned dictionary and the requested mode, feed the input text, run the
analysis (failure becomes TokenizeError), materialize the morpheme list
(failure becomes TokenizeError), and project each raw morpheme. -/
def Tokenizer.tokenize (lib : AnalyzerLib β δ σ) (t : Tokenizer δ)
    (text : String) (mode : TokenizeMode) :
    Except SudachiError (List MorphemeInfo) :=
  let s := lib.push_str (lib.new_session t.dictionary mode.into) text
  match lib.do_tokenize s with
  | .error e => .error (SudachiError.TokenizeError e)
  | .ok s2 =>
    match lib.into_morpheme_list s2 with
    | .error e => .error (SudachiError.TokenizeError e)
    | .ok morphemes => .ok (morphemes.map projectMorpheme)

/-- One-shot convenience function (src/rust/src/lib.rs:240-247). -/
def tokenize_text (lib : AnalyzerLib β δ σ) (text : String)
    (dictionary_path : String) (mode : TokenizeMode) :
    Except SudachiError (List MorphemeInfo) :=
  match Tokenizer.with_dictionary lib dictionary_path with
  | .error e => .error e
  | .ok t => Tokenizer.tokenize lib t text mode

/-- Base URL for dictionary downloads (src/rust/src/lib.rs:258). -/
def DICTIONARY_BASE_URL : String := "https://d2ej7fkh96fzlu.cloudfront.net/sudachidict"

/-- Download URL construction (src/rust/src/lib.rs:267-271). -/
def get_dictionary_download_url (dict_type : DictionaryType) (version : Option String) :
    String :=
  let version_str := version.getD "latest"
  let dict_name := "sudachi-dictionary-" ++ version_str ++ "-" ++ dict_type.as_str
  DICTIONARY_BASE_URL ++ "/" ++ dict_name ++ ".zip"

/-- Dictionary metadata record (src/rust/src/lib.rs:274-286). -/
structure DictionaryInfo where
  name : String
  size_mb : Nat
  description : String
  download_url : String
  dic_filename : String
deriving DecidableEq

/-- Dictionary metadata lookup (src/rust/src/lib.rs:290-304). -/
def get_dictionary_info (dict_type : DictionaryType) (version : Option String) :
    DictionaryInfo :=
  let fixed : String × Nat × String :=
    match dict_type with
    | .Small => ("small", 50, "Minimum vocabulary dictionary")
    | .Core => ("core", 70, "Basic vocabulary dictionary (recommended)")
    | .Full => ("full", 1000, "Complete vocabulary dictionary")
  { name := fixed.1
    size_mb := fixed.2.1
    description := fixed.2.2
    download_url := get_dictionary_download_url dict_type version
    dic_filename := "system_" ++ fixed.1 ++ ".dic" }

/-- All three dictionary metadata records (src/rust/src/lib.rs:308-314). -/
def get_all_dictionary_info (version : Option String) : List DictionaryInfo :=
  [get_dictionary_info DictionaryType.Small version,
   get_dictionary_info DictionaryType.Core version,
   get_dictionary_info DictionaryType.Full version]

/-- Modelled from the spec: the behavior of the analyzer library's
StatefulTokenizer on empty input is not part of src/; the spec's edge-case
contract states that running the session on empty input succeeds and the
materialized morpheme list is empty. -/
def EmptyInputOk (lib : AnalyzerLib β δ σ) : Prop :=
  ∀ (d : δ) (m : SudachiMode), ∃ s2 : σ,
    lib.do_tokenize (lib.push_str (lib.new_session d m) "") = .ok s2 ∧
    lib.into_morpheme_list s2 = .ok []

/-- Reassociation of the URL concatenation: the base URL, the slash and the
fixed file-name stem fuse into one literal prefix. -/
theorem url_append_shape (vs tok : String) :
    DICTIONARY_BASE_URL ++ "/" ++ ("sudachi-dictionary-" ++ vs ++ "-" ++ tok) ++ ".zip"
      = "https://d2ej7fkh96fzlu.cloudfront.net/sudachidict/sudachi-dictionary-"
          ++ vs ++ "-" ++ tok ++ ".zip" := by
  simp only [DICTIONARY_BASE_URL, String.append_assoc]
  rw [← String.append_assoc "https://d2ej7fkh96fzlu.cloudfront.net/sudachidict",
    ← String.append_assoc]
  congr 1

/-- C3: for all three dictionary sizes and any optional version string,
get_dictionary_download_url returns exactly the base URL followed by
"/sudachi-dictionary-" followed by the version (the literal "latest" when
absent), a hyphen, the size token (small, core or full), and ".zip". -/
theorem get_dictionary_download_url_exact (version : Option String) :
    (∀ dict_type : DictionaryType,
      get_dictionary_download_url dict_type version =
        "https://d2ej7fkh96fzlu.cloudfront.net/sudachidict/sudachi-dictionary-"
          ++ version.getD "latest" ++ "-" ++ dict_type.as_str ++ ".zip")
  ∧ DictionaryType.as_str DictionaryType.Small = "small"
  ∧ DictionaryType.as_str DictionaryType.Core = "core"
  ∧ DictionaryType.as_str DictionaryType.Full = "full"
  ∧ get_dictionary_download_url DictionaryType.Core none =
      "https://d2ej7fkh96fzlu.cloudfront.net/sudachidict/sudachi-dictionary-latest-core.zip"
  ∧ get_dictionary_download_url DictionaryType.Full (some "20241021") =
      "https://d2ej7fkh96fzlu.cloudfront.net/sudachidict/sudachi-dictionary-20241021-full.zip" := by
  refine ⟨fun dict_type => ?_, rfl, rfl, rfl, by decide, by decide⟩
  simp only [get_dictionary_download_url]
  exact url_append_shape (version.getD "latest") dict_type.as_str

/-- C4: get_dictionary_info returns the fixed record for each size, with
download_url computed by get_dictionary_download_url and dic_filename equal
to "system_" followed by the size token and ".dic". -/
theorem get_dictionary_info_fixed (version : Option String) :
    get_dictionary_info DictionaryType.Small version =
      { name := "small", size_mb := 50, description := "Minimum vocabulary dictionary",
        download_url := get_dictionary_download_url DictionaryType.Small version,
        dic_filename := "system_small.dic" }
  ∧ get_dictionary_info DictionaryType.Core version =
      { name := "core", size_mb := 70,
        description := "Basic vocabulary dictionary (recommended)",
        download_url := get_dictionary_download_url DictionaryType.Core version,
        dic_filename := "system_core.dic" }
  ∧ get_dictionary_info DictionaryType.Full version =
      { name := "full", size_mb := 1000, description := "Complete vocabulary dictionary",
        download_url := get_dictionary_download_url DictionaryType.Full version,
        dic_filename := "system_full.dic" }
  ∧ get_dictionary_info DictionaryType.Core none =
      { name := "core", size_mb := 70,
        description := "Basic vocabulary dictionary (recommended)",
        download_url :=
          "https://d2ej7fkh96fzlu.cloudfront.net/sudachidict/sudachi-dictionary-latest-core.zip",
        dic_filename := "system_core.dic" } :=
  ⟨rfl, rfl, rfl, by decide⟩

/-- C5: get_all_dictionary_info returns exactly 3 entries, in order Small,
Core, Full, each equal to get_dictionary_info of that size and version. -/
theorem get_all_dictionary_info_order (version : Option String) :
    get_all_dictionary_info version =
      [get_dictionary_info DictionaryType.Small version,
       get_dictionary_info DictionaryType.Core version,
       get_dictionary_info DictionaryType.Full version]
  ∧ (get_all_dictionary_info version).length = 3
  ∧ (get_all_dictionary_info version).map DictionaryInfo.name = ["small", "core", "full"] :=
  ⟨rfl, rfl, rfl⟩

/-- C6: the mapping from the three caller-facing modes to the analyzer
library's mode enumeration is a bijection, and round-tripping through the
mapping and its inverse recovers the original mode in both directions. -/
theorem mode_mapping_bijection :
    Function.Bijective TokenizeMode.into
  ∧ (∀ m : TokenizeMode, SudachiMode.intoTokenizeMode m.into = m)
  ∧ (∀ s : SudachiMode, (SudachiMode.intoTokenizeMode s).into = s) := by
  have h1 : ∀ m : TokenizeMode, SudachiMode.intoTokenizeMode m.into = m := by
    intro m; cases m <;> rfl
  have h2 : ∀ s : SudachiMode, (SudachiMode.intoTokenizeMode s).into = s := by
    intro s; cases s <;> rfl
  exact ⟨⟨Function.LeftInverse.injective h1, Function.RightInverse.surjective h2⟩, h1, h2⟩

/-- C10: Tokenizer.with_dictionary path produces the same result as
Tokenizer.new on a TokenizerConfig with that dictionary_path and all
optional fields unset, for every analyzer library and path. -/
theorem with_dictionary_is_new_with_defaults {β δ σ : Type} (lib : AnalyzerLib β δ σ)
    (path : String) :
    Tokenizer.with_dictionary lib path =
      Tokenizer.new lib
        { dictionary_path := path, config_path := none, resource_path := none,
          user_dictionary_path := none } :=
  rfl

/-- C1: Tokenizer construction resolves the resource directory by priority:
the explicit resource_path if given; otherwise the parent directory of
config_path if a config file was given; otherwise the parent directory of
dictionary_path; if none yields a usable parent it is left unset.  The
resolved value is exactly what the builder passed to the dictionary loader
carries.  With only dictionary_path /a/b/d.dic the resolved directory is
/a/b, and with config_path /x/y/cfg.json and no explicit resource path it
is /x/y regardless of dictionary_path. -/
theorem resource_path_resolution (cfg : TokenizerConfig) :
    (∀ (β : Type) (base : β), (builtConfig base cfg).resourcePath = resolveResourcePath cfg)
  ∧ (∀ r, cfg.resource_path = some r → resolveResourcePath cfg = some r)
  ∧ (∀ c d, cfg.resource_path = none → cfg.config_path = some c → pathParent c = some d →
      resolveResourcePath cfg = some d)
  ∧ (cfg.resource_path = none → cfg.config_path = none →
      resolveResourcePath cfg = pathParent cfg.dictionary_path)
  ∧ (∀ c, cfg.resource_path = none → cfg.config_path = some c → pathParent c = none →
      resolveResourcePath cfg = pathParent cfg.dictionary_path)
  ∧ resolveResourcePath
      { dictionary_path := "/a/b/d.dic", config_path := none, resource_path := none,
        user_dictionary_path := none } = some "/a/b"
  ∧ (∀ dict : String, resolveResourcePath
      { dictionary_path := dict, config_path := some "/x/y/cfg.json", resource_path := none,
        user_dictionary_path := none } = some "/x/y") := by
  have hxy : pathParent "/x/y/cfg.json" = some "/x/y" := by decide
  refine ⟨?_, ?_, ?_, ?_, ?_, by decide, ?_⟩
  · intro β base
    cases h : resolveResourcePath cfg <;>
      cases h2 : cfg.user_dictionary_path <;>
        simp [builtConfig, h, h2, ConfigBuilder.system_dict, ConfigBuilder.resource_path,
          ConfigBuilder.user_dict]
  · intro r h
    simp [resolveResourcePath, h, Option.orElse]
  · intro c d hr hc hp
    simp [resolveResourcePath, hr, hc, hp, Option.orElse, Option.bind]
  · intro hr hc
    simp [resolveResourcePath, hr, hc, Option.orElse, Option.bind]
  · intro c hr hc hp
    simp [resolveResourcePath, hr, hc, hp, Option.orElse, Option.bind]
  · intro dict
    simp [resolveResourcePath, Option.orElse, Option.bind, hxy]

/-- Witness for the resource-path resolution theorem at the concrete
configuration with only the dictionary path /a/b/d.dic. -/
theorem resource_path_resolution_witness :
    resolveResourcePath
      { dictionary_path := "/a/b/d.dic", config_path := none, resource_path := none,
        user_dictionary_path := none } = pathParent "/a/b/d.dic"
  ∧ (builtConfig ()
      { dictionary_path := "/a/b/d.dic", config_path := none, resource_path := none,
        user_dictionary_path := none }).resourcePath = some "/a/b" := by
  have h := resource_path_resolution
    { dictionary_path := "/a/b/d.dic", config_path := none, resource_path := none,
      user_dictionary_path := none }
  exact ⟨h.2.2.2.1 rfl rfl, (h.1 Unit ()).trans h.2.2.2.2.2.1⟩

/-- C7: Tokenizer construction maps each failure to exactly one error kind
with the underlying diagnostic preserved verbatim in the message field: a
config-file parse failure yields ConfigError, a dictionary load failure
yields DictionaryLoadError (non-empty whenever the library's diagnostic
is), and in every failure case no Tokenizer is produced. -/
theorem tokenizer_new_error_mapping {β δ σ : Type} (lib : AnalyzerLib β δ σ)
    (cfg : TokenizerConfig) :
    (∀ p e, cfg.config_path = some p → lib.config_from_file p = .error e →
      Tokenizer.new lib cfg = .error (SudachiError.ConfigError e) ∧
      (SudachiError.ConfigError e).message = e)
  ∧ (∀ e, cfg.config_path = none → lib.from_cfg (builtConfig lib.empty cfg) = .error e →
      Tokenizer.new lib cfg = .error (SudachiError.DictionaryLoadError e) ∧
      (SudachiError.DictionaryLoadError e).message = e ∧
      (e ≠ "" → (SudachiError.DictionaryLoadError e).message ≠ ""))
  ∧ (∀ p b e, cfg.config_path = some p → lib.config_from_file p = .ok b →
      lib.from_cfg (builtConfig b cfg) = .error e →
      Tokenizer.new lib cfg = .error (SudachiError.DictionaryLoadError e) ∧
      (SudachiError.DictionaryLoadError e).message = e)
  ∧ (∀ err, Tokenizer.new lib cfg = .error err →
      ∀ t : Tokenizer δ, ¬ Tokenizer.new lib cfg = .ok t) := by
  refine ⟨?_, ?_, ?_, ?_⟩
  · intro p e hc hf
    exact ⟨by simp [Tokenizer.new, hc, hf], rfl⟩
  · intro e hc hf
    exact ⟨by simp [Tokenizer.new, hc, hf], rfl, fun h => h⟩
  · intro p b e hc hb hf
    exact ⟨by simp [Tokenizer.new, hc, hb, hf], rfl⟩
  · intro err herr t hok
    rw [herr] at hok
    exact Except.noConfusion hok

/-- Library stub whose config parsing and dictionary loading both fail,
with fixed diagnostics. -/
def failLib : AnalyzerLib Unit Unit Unit :=
  { config_from_file := fun _ => .error "invalid config file"
    empty := ()
    from_cfg := fun _ => .error "dictionary file not found"
    new_session := fun _ _ => ()
    push_str := fun s _ => s
    do_tokenize := fun s => .ok s
    into_morpheme_list := fun _ => .ok [] }

/-- Witness for the error-mapping theorem: concrete failing parse and load. -/
theorem tokenizer_new_error_mapping_witness :
    Tokenizer.new failLib
      { dictionary_path := "/tmp/missing.dic", config_path := some "/tmp/sudachi.json",
        resource_path := none, user_dictionary_path := none } =
      .error (SudachiError.ConfigError "invalid config file")
  ∧ Tokenizer.new failLib
      { dictionary_path := "/tmp/missing.dic", config_path := none,
        resource_path := none, user_dictionary_path := none } =
      .error (SudachiError.DictionaryLoadError "dictionary file not found")
  ∧ (SudachiError.DictionaryLoadError "dictionary file not found").message ≠ "" := by
  have h1 := (tokenizer_new_error_mapping failLib
    { dictionary_path := "/tmp/missing.dic", config_path := some "/tmp/sudachi.json",
      resource_path := none, user_dictionary_path := none }).1
    "/tmp/sudachi.json" "invalid config file" rfl rfl
  have h2 := (tokenizer_new_error_mapping failLib
    { dictionary_path := "/tmp/missing.dic", config_path := none,
      resource_path := none, user_dictionary_path := none }).2.1
    "dictionary file not found" rfl rfl
  exact ⟨h1.1, h2.1, h2.2.2 (by decide)⟩

/-- C8: tokenizing the empty string on any successfully constructed
Tokenizer returns an empty morpheme sequence, not an error, for every mode,
whenever the analyzer library satisfies the spec's empty-input contract. -/
theorem tokenize_empty_input {β δ σ : Type} (lib : AnalyzerLib β δ σ) (t : Tokenizer δ)
    (mode : TokenizeMode) (h : EmptyInputOk lib) :
    Tokenizer.tokenize lib t "" mode = .ok [] := by
  obtain ⟨s2, h1, h2⟩ := h t.dictionary mode.into
  simp [Tokenizer.tokenize, h1, h2]

/-- Library stub whose every operation succeeds and whose morpheme list is
empty. -/
def emptyOkLib : AnalyzerLib Unit Unit Unit :=
  { config_from_file := fun _ => .ok ()
    empty := ()
    from_cfg := fun _ => .ok ()
    new_session := fun _ _ => ()
    push_str := fun s _ => s
    do_tokenize := fun s => .ok s
    into_morpheme_list := fun _ => .ok [] }

/-- Witness for the empty-input theorem on a concrete library stub. -/
theorem tokenize_empty_input_witness :
    EmptyInputOk emptyOkLib ∧
    Tokenizer.tokenize emptyOkLib { dictionary := () } "" TokenizeMode.A = .ok [] := by
  have hc : EmptyInputOk emptyOkLib := fun d m => ⟨(), rfl, rfl⟩
  exact ⟨hc, tokenize_empty_input emptyOkLib { dictionary := () } TokenizeMode.A hc⟩

/-- C9 (amended): tokenize is a pure structural map over the analyzer
library's morpheme list: the output has the same length and order, and for
each element the surface, part-of-speech sequence, dictionary form,
normalized form, reading form and OOV flag are copied verbatim, while the
begin/end byte offsets are reduced modulo 2^32 by the cast to u32, which
copies them exactly whenever they fit in 32 bits. -/
theorem morpheme_projection_structural {β δ σ : Type} (lib : AnalyzerLib β δ σ)
    (t : Tokenizer δ) (text : String) (mode : TokenizeMode)
    (s2 : σ) (ms : List RawMorpheme)
    (h1 : lib.do_tokenize (lib.push_str (lib.new_session t.dictionary mode.into) text) = .ok s2)
    (h2 : lib.into_morpheme_list s2 = .ok ms) :
    Tokenizer.tokenize lib t text mode = .ok (ms.map projectMorpheme)
  ∧ (ms.map projectMorpheme).length = ms.length
  ∧ ∀ m : RawMorpheme,
      (projectMorpheme m).surface = m.surface
    ∧ (projectMorpheme m).part_of_speech = m.partOfSpeech
    ∧ (projectMorpheme m).dictionary_form = m.dictionaryForm
    ∧ (projectMorpheme m).normalized_form = m.normalizedForm
    ∧ (projectMorpheme m).reading_form = m.readingForm
    ∧ (projectMorpheme m).is_oov = m.isOov
    ∧ (projectMorpheme m).begin = m.begin % 4294967296
    ∧ (projectMorpheme m).end_ = m.end_ % 4294967296
    ∧ (m.begin < 4294967296 → (projectMorpheme m).begin = m.begin)
    ∧ (m.end_ < 4294967296 → (projectMorpheme m).end_ = m.end_) := by
  refine ⟨by simp [Tokenizer.tokenize, h1, h2], by simp, ?_⟩
  intro m
  refine ⟨rfl, by simp [projectMorpheme], rfl, rfl, rfl, rfl, rfl, rfl, ?_, ?_⟩
  · intro hlt
    simp [projectMorpheme, Nat.mod_eq_of_lt hlt]
  · intro hlt
    simp [projectMorpheme, Nat.mod_eq_of_lt hlt]

/-- Raw morpheme whose begin offset does not fit in 32 bits. -/
def hugeRaw : RawMorpheme :=
  { surface := "t", partOfSpeech := ["名詞"], dictionaryForm := "t", normalizedForm := "t",
    readingForm := "ト", isOov := false, wordId := 3,
    begin := 4294967296, end_ := 4294967297 }

/-- Library stub returning the single out-of-range-offset morpheme. -/
def hugeLib : AnalyzerLib Unit Unit Unit :=
  { config_from_file := fun _ => .ok ()
    empty := ()
    from_cfg := fun _ => .ok ()
    new_session := fun _ _ => ()
    push_str := fun s _ => s
    do_tokenize := fun s => .ok s
    into_morpheme_list := fun _ => .ok [hugeRaw] }

/-- C9 counterexample: the begin/end offsets are not copied verbatim for
every raw morpheme list — a raw begin offset of 2^32 is truncated to 0 by
the cast to u32 in the projection inside tokenize. -/
theorem morpheme_projection_offset_truncated :
    Tokenizer.tokenize hugeLib { dictionary := () } "t" TokenizeMode.A =
      .ok [projectMorpheme hugeRaw]
  ∧ hugeRaw.begin = 4294967296
  ∧ (projectMorpheme hugeRaw).begin = 0
  ∧ ¬ (projectMorpheme hugeRaw).begin = hugeRaw.begin := by
  refine ⟨rfl, rfl, by decide, by decide⟩

/-- Witness for the structural-projection theorem on the concrete stub. -/
theorem morpheme_projection_structural_witness :
    Tokenizer.tokenize hugeLib { dictionary := () } "t" TokenizeMode.A =
      .ok ([hugeRaw].map projectMorpheme)
  ∧ ([hugeRaw].map projectMorpheme).length = 1 := by
  have h := morpheme_projection_structural hugeLib { dictionary := () } "t" TokenizeMode.A
    () [hugeRaw] rfl rfl
  exact ⟨h.1, h.2.1.trans rfl⟩

/-- C2 (amended): the word_id of every projected morpheme equals the
analyzer library's raw word identifier reinterpreted as a signed 32-bit
integer; it equals -1 exactly when the raw identifier is 0xFFFFFFFF.  The
facade does not substitute -1 for out-of-vocabulary morphemes. -/
theorem word_id_is_raw_identifier_cast (m : RawMorpheme) :
    (projectMorpheme m).word_id = toI32 m.wordId
  ∧ ((projectMorpheme m).word_id = -1 ↔ m.wordId % 4294967296 = 4294967295) := by
  constructor
  · rfl
  · have hrlt : m.wordId % 4294967296 < 4294967296 := Nat.mod_lt _ (by norm_num)
    simp only [projectMorpheme, toI32]
    by_cases h : m.wordId % 4294967296 < 2147483648
    · simp only [if_pos h]
      omega
    · simp only [if_neg h]
      omega

/-- Raw out-of-vocabulary morpheme whose word identifier is 7, as the
analyzer library's unknown-word handling may produce under the spec's
collaborator contract. -/
def oovRaw : RawMorpheme :=
  { surface := "ｘ", partOfSpeech := ["補助記号"], dictionaryForm := "ｘ",
    normalizedForm := "ｘ", readingForm := "", isOov := true, wordId := 7,
    begin := 0, end_ := 3 }

/-- Library stub returning the single out-of-vocabulary morpheme. -/
def oovLib : AnalyzerLib Unit Unit Unit :=
  { config_from_file := fun _ => .ok ()
    empty := ()
    from_cfg := fun _ => .ok ()
    new_session := fun _ _ => ()
    push_str := fun s _ => s
    do_tokenize := fun s => .ok s
    into_morpheme_list := fun _ => .ok [oovRaw] }

/-- C2 counterexample: a morpheme in the result of tokenize whose
isOutOfVocabulary flag is true and whose word_id is 7, not -1 — the
projection copies the raw identifier instead of substituting -1. -/
theorem oov_word_id_not_minus_one :
    Tokenizer.tokenize oovLib { dictionary := () } "ｘ" TokenizeMode.A =
      .ok [{ surface := "ｘ", part_of_speech := ["補助記号"], dictionary_form := "ｘ",
             normalized_form := "ｘ", reading_form := "", is_oov := true,
             word_id := 7, begin := 0, end_ := 3 }]
  ∧ (projectMorpheme oovRaw).is_oov = true
  ∧ (projectMorpheme oovRaw).word_id = 7
  ∧ ¬ (projectMorpheme oovRaw).word_id = -1 := by
  refine ⟨rfl, rfl, by decide, by decide⟩

end SudachiSwift
